import Mathlib

/-!
Shallow embedding of the `blog` application of this repository
(`blog/models.py` and `blog/views.py`) and proofs about its
visibility rule and its three read-only view operations.

Timestamps are modelled as natural numbers; the relational store is a
record of lists of rows.  Django queryset combinators are translated
row-by-row: `filter` becomes `List.filter`, the `Meta.ordering` clause
becomes a sort by the declared key, slicing becomes `List.take`, and
`get_object_or_404` becomes a match on the filtered row list that
distinguishes "no row" (not found) from "several rows" (multiple
objects returned).
-/

namespace Blogicum

/-- A `Category` row (`blog/models.py`, class `Category`, inheriting the
`is_published` and `created_at` fields of `BaseBlogMeta`). -/
structure Category where
  id : Nat
  title : String
  description : String
  slug : String
  is_published : Bool
  created_at : Nat
deriving DecidableEq, Repr

/-- A `Location` row (`blog/models.py`, class `Location`). -/
structure Location where
  id : Nat
  name : String
  is_published : Bool
  created_at : Nat
deriving DecidableEq, Repr

/-- A `Post` row (`blog/models.py`, class `Post`).  `author` is a required
user id; `location` and `category` are nullable foreign keys, modelled as
optional ids. -/
structure Post where
  id : Nat
  title : String
  text : String
  pub_date : Nat
  author : Nat
  location : Option Nat
  category : Option Nat
  is_published : Bool
  created_at : Nat
deriving DecidableEq, Repr

/-- The relational store: the four tables the application reads. -/
structure Store where
  categories : List Category
  locations : List Location
  posts : List Post
  users : List Nat
deriving DecidableEq, Repr

/-- The join condition `category__is_published=True` of
`PublishedPostsManager.get_queryset` (`blog/models.py` lines 59-63).
In SQL this is a join on the nullable `category` column, so a row whose
`category` is NULL does not satisfy it: the match on `none` yields
`false`. -/
def categoryPublished (s : Store) (p : Post) : Bool :=
  match p.category with
  | none => false
  | some cid => s.categories.any (fun c => c.id == cid && c.is_published)

/-- The row predicate of `PublishedPostsManager.get_queryset`
(`blog/models.py` lines 59-63): `is_published=True`,
`pub_date__lt=now()`, `category__is_published=True`, evaluated at
call time `t`. -/
def postVisible (s : Store) (t : Nat) (p : Post) : Bool :=
  p.is_published && decide (p.pub_date < t) && categoryPublished s p

/-- The ordering key of `Post.Meta.ordering = ('-pub_date',)`
(`blog/models.py` line 215): `a` comes no later than `b` in the listing
when `a.pub_date` is at least `b.pub_date`. -/
def postLater (a b : Post) : Prop := b.pub_date ≤ a.pub_date

instance : DecidableRel postLater :=
  fun a b => inferInstanceAs (Decidable (b.pub_date ≤ a.pub_date))

instance : IsTotal Post postLater := ⟨fun a b => Nat.le_total b.pub_date a.pub_date⟩

instance : IsTrans Post postLater := ⟨fun _ _ _ h1 h2 => Nat.le_trans h2 h1⟩

/-- `Post.published.all()`: the rows kept by
`PublishedPostsManager.get_queryset` at evaluation time `t`, in the
default `-pub_date` order of `Post.Meta`. -/
def listVisiblePosts (s : Store) (t : Nat) : List Post :=
  List.insertionSort postLater (s.posts.filter (postVisible s t))

/-- `Post.published.all()[:n]` — the queryset slice taken by `index`
(`blog/views.py` line 15) with `n = settings.POSTS_BY_PAGE`. -/
def listRecentPosts (s : Store) (t : Nat) (n : Nat) : List Post :=
  (listVisiblePosts s t).take n

/-- The two ways a `QuerySet.get` call (hence `get_object_or_404`) can
fail: no matching row (surfaced as HTTP 404) or several matching rows
(`MultipleObjectsReturned`). -/
inductive DbError where
  | notFound
  | multiple
deriving DecidableEq, Repr

/-- `QuerySet.get` on an already-filtered row list, as used through
`get_object_or_404`. -/
def getOne {α : Type} (l : List α) : Except DbError α :=
  match l with
  | [] => Except.error DbError.notFound
  | [a] => Except.ok a
  | _ :: _ :: _ => Except.error DbError.multiple

/-- A value stored in a template context mapping. -/
inductive CtxVal where
  | posts : List Post → CtxVal
  | post : Post → CtxVal
  | category : Category → CtxVal
deriving DecidableEq, Repr

/-- A template context: the mapping each view hands to `render`. -/
def Ctx : Type := List (String × CtxVal)

/-- `get_object_or_404(Post.published.all(), id=post_id)`
(`blog/views.py` lines 35-37). -/
def getPostById (s : Store) (t : Nat) (i : Nat) : Except DbError Post :=
  getOne ((listVisiblePosts s t).filter (fun p => p.id == i))

/-- `get_object_or_404(Category, slug=category_slug, is_published=True)`
(`blog/views.py` lines 58-60). -/
def getCategoryBySlug (s : Store) (slug : String) : Except DbError Category :=
  getOne (s.categories.filter (fun c => c.slug == slug && c.is_published))

/-- The join condition `category__slug=category_slug` of the filter in
`category_posts` (`blog/views.py` lines 61-63); a NULL `category` fails
the join. -/
def categorySlugIs (s : Store) (p : Post) (slug : String) : Bool :=
  match p.category with
  | none => false
  | some cid => s.categories.any (fun c => c.id == cid && c.slug == slug)

/-- `Post.published.filter(category__slug=category_slug)`
(`blog/views.py` lines 61-63). -/
def categoryPostList (s : Store) (t : Nat) (slug : String) : List Post :=
  (listVisiblePosts s t).filter (fun p => categorySlugIs s p slug)

/-- The `index` view (`blog/views.py` lines 6-19): reads the store,
builds the context `{'post_list': ...}` and returns the store as the
view left it. -/
def index (s : Store) (t : Nat) (n : Nat) : Ctx × Store :=
  ([("post_list", CtxVal.posts (listRecentPosts s t n))], s)

/-- The `post_detail` view (`blog/views.py` lines 22-39): looks the post
up through `Post.published`, and on success builds `{'post': post}`. -/
def post_detail (s : Store) (t : Nat) (i : Nat) : Except DbError Ctx × Store :=
  ((getPostById s t i).map (fun p => [("post", CtxVal.post p)]), s)

/-- The `category_posts` view (`blog/views.py` lines 42-68): fetches the
published category by slug, then filters the visible posts by that slug
and builds `{'category': ..., 'post_list': ...}`. -/
def category_posts (s : Store) (t : Nat) (slug : String) :
    Except DbError Ctx × Store :=
  ((getCategoryBySlug s slug).map (fun c =>
    [("category", CtxVal.category c),
     ("post_list", CtxVal.posts (categoryPostList s t slug))]), s)

/-- Modelled from the spec: the spec's own visibility predicate, written
from its words "its own is_published flag is true, its pub_date is
strictly in the past [...] and its linked Category (if present) is
itself published.  A Post whose category reference has been nulled is
still eligible".  Kept separate from `postVisible` (which is translated
from `PublishedPostsManager.get_queryset`) so the two can be compared. -/
def specVisible (s : Store) (t : Nat) (p : Post) : Bool :=
  p.is_published && decide (p.pub_date < t) &&
    (match p.category with
     | none => true
     | some _ => categoryPublished s p)

/-- The ordering key of `BaseBlogMeta.Meta.ordering = ('created_at',)`
(`blog/models.py` line 46), as inherited by `Category`. -/
def catEarlier (a b : Category) : Prop := a.created_at ≤ b.created_at

instance : DecidableRel catEarlier :=
  fun a b => inferInstanceAs (Decidable (a.created_at ≤ b.created_at))

instance : IsTotal Category catEarlier := ⟨fun a b => Nat.le_total a.created_at b.created_at⟩

instance : IsTrans Category catEarlier := ⟨fun _ _ _ h1 h2 => Nat.le_trans h1 h2⟩

/-- The ordering key of `BaseBlogMeta.Meta.ordering = ('created_at',)`
as inherited by `Location`. -/
def locEarlier (a b : Location) : Prop := a.created_at ≤ b.created_at

instance : DecidableRel locEarlier :=
  fun a b => inferInstanceAs (Decidable (a.created_at ≤ b.created_at))

instance : IsTotal Location locEarlier := ⟨fun a b => Nat.le_total a.created_at b.created_at⟩

instance : IsTrans Location locEarlier := ⟨fun _ _ _ h1 h2 => Nat.le_trans h1 h2⟩

/-- A `Category` listing under the inherited default ordering. -/
def listCategories (s : Store) : List Category :=
  List.insertionSort catEarlier s.categories

/-- A `Location` listing under the inherited default ordering. -/
def listLocations (s : Store) : List Location :=
  List.insertionSort locEarlier s.locations

/-- A `Post` listing under `Post.Meta.ordering = ('-pub_date',)`, which
overrides the inherited `('created_at',)` default. -/
def listPosts (s : Store) : List Post :=
  List.insertionSort postLater s.posts

/-- The declared default of the `is_published` field of `BaseBlogMeta`
(`blog/models.py` lines 34-38): `BooleanField(default=True)`. -/
def isPublishedDefault : Bool := true

/-- Row creation through the administrative tooling: a `Category` insert
where `pub` is the explicitly supplied publication flag, if any; when it
is absent the field default of `BaseBlogMeta.is_published` applies, and
`created_at` is set to the insertion time (`auto_now_add=True`). -/
def createCategory (id : Nat) (title description slug : String)
    (pub : Option Bool) (now : Nat) : Category :=
  { id := id, title := title, description := description, slug := slug,
    is_published := pub.getD isPublishedDefault, created_at := now }

/-- A `Location` insert; see `createCategory`. -/
def createLocation (id : Nat) (name : String) (pub : Option Bool)
    (now : Nat) : Location :=
  { id := id, name := name,
    is_published := pub.getD isPublishedDefault, created_at := now }

/-- A `Post` insert; see `createCategory`. -/
def createPost (id : Nat) (title text : String) (pd author : Nat)
    (loc cat : Option Nat) (pub : Option Bool) (now : Nat) : Post :=
  { id := id, title := title, text := text, pub_date := pd,
    author := author, location := loc, category := cat,
    is_published := pub.getD isPublishedDefault, created_at := now }

/-- Primary-key uniqueness of the `id` column of the `Post` table. -/
def postIdsUnique (s : Store) : Prop :=
  s.posts.Pairwise (fun a b => a.id ≠ b.id)

instance (s : Store) : Decidable (postIdsUnique s) :=
  inferInstanceAs (Decidable (s.posts.Pairwise _))

/-- Strict descending order of `pub_date` along a listing. -/
def strictPubDateDesc (l : List Post) : Prop :=
  l.Pairwise (fun a b => b.pub_date < a.pub_date)

instance (l : List Post) : Decidable (strictPubDateDesc l) :=
  inferInstanceAs (Decidable (l.Pairwise _))

/-- A published example category. -/
def newsCat : Category :=
  { id := 1, title := "News", description := "news", slug := "news",
    is_published := true, created_at := 0 }

/-- An unpublished example category. -/
def hiddenCat : Category :=
  { id := 2, title := "Secret", description := "s", slug := "secret",
    is_published := false, created_at := 1 }

/-- A published example post in `newsCat` with `pub_date = 5`. -/
def postA : Post :=
  { id := 10, title := "A", text := "a", pub_date := 5, author := 1,
    location := none, category := some 1, is_published := true,
    created_at := 0 }

/-- A published example post whose category reference is NULL. -/
def postNoCat : Post :=
  { id := 11, title := "B", text := "b", pub_date := 5, author := 1,
    location := none, category := none, is_published := true,
    created_at := 1 }

/-- A published example post in `newsCat` with `pub_date = 6`. -/
def postB : Post :=
  { id := 12, title := "C", text := "c", pub_date := 6, author := 1,
    location := none, category := some 1, is_published := true,
    created_at := 2 }

/-- A published example post in `newsCat` sharing `pub_date = 5` with
`postA`. -/
def postTie : Post :=
  { id := 13, title := "D", text := "d", pub_date := 5, author := 1,
    location := none, category := some 1, is_published := true,
    created_at := 3 }

/-- Store with a single null-category post. -/
def storeNull : Store :=
  { categories := [newsCat], locations := [], posts := [postNoCat],
    users := [1] }

/-- Store with one visible post in a published category, plus an
unpublished category. -/
def storeMain : Store :=
  { categories := [newsCat, hiddenCat], locations := [], posts := [postA],
    users := [1] }

/-- Store with two visible posts sharing the same `pub_date`. -/
def storeTie : Store :=
  { categories := [newsCat], locations := [], posts := [postA, postTie],
    users := [1] }

/-- Store with two posts of distinct `pub_date` in the same category. -/
def storeTwo : Store :=
  { categories := [newsCat], locations := [], posts := [postA, postB],
    users := [1] }

/-!  Shared lemmas about the embedded queryset combinators. -/

theorem mem_listVisiblePosts {s : Store} {t : Nat} {p : Post} :
    p ∈ listVisiblePosts s t ↔ p ∈ s.posts ∧ postVisible s t p = true := by
  unfold listVisiblePosts
  rw [(List.perm_insertionSort postLater _).mem_iff, List.mem_filter]

theorem sorted_listVisiblePosts (s : Store) (t : Nat) :
    (listVisiblePosts s t).Pairwise postLater :=
  List.sorted_insertionSort postLater _

theorem length_listVisiblePosts (s : Store) (t : Nat) :
    (listVisiblePosts s t).length = (s.posts.filter (postVisible s t)).length :=
  (List.perm_insertionSort postLater _).length_eq

theorem pairwise_ne_listVisiblePosts {s : Store} (h : postIdsUnique s) (t : Nat) :
    (listVisiblePosts s t).Pairwise (fun a b => a.id ≠ b.id) :=
  (h.filter _).perm (List.perm_insertionSort postLater _).symm
    (fun hxy => Ne.symm hxy)

theorem getOne_eq_ok {α : Type} {l : List α} {a : α} :
    getOne l = Except.ok a ↔ l = [a] := by
  match l with
  | [] => simp [getOne]
  | [x] => simp [getOne, eq_comm]
  | x :: y :: ys => simp [getOne]

theorem getOne_eq_notFound {α : Type} {l : List α} :
    getOne l = Except.error DbError.notFound ↔ l = [] := by
  match l with
  | [] => simp [getOne]
  | [x] => simp [getOne]
  | x :: y :: ys => simp [getOne]

theorem filter_id_eq_singleton {l : List Post} {i : Nat} {p : Post}
    (hw : l.Pairwise (fun a b => a.id ≠ b.id))
    (hp : p ∈ l.filter (fun q => q.id == i)) :
    l.filter (fun q => q.id == i) = [p] := by
  induction l with
  | nil => simp at hp
  | cons a l ih =>
    rcases List.pairwise_cons.mp hw with ⟨ha, hl⟩
    by_cases hai : a.id = i
    · have hnil : l.filter (fun q => q.id == i) = [] := by
        refine List.filter_eq_nil_iff.mpr (fun q hq hqi => ?_)
        exact ha q hq (by rw [hai, ← beq_iff_eq.mp hqi])
      rw [List.filter_cons_of_pos (by simpa using hai)] at hp ⊢
      rw [hnil] at hp ⊢
      simpa using (List.mem_singleton.mp hp).symm
    · rw [List.filter_cons_of_neg (by simpa using hai)] at hp ⊢
      exact ih hl hp

/-- C1 (counterexample): a published, past-dated post whose category
reference is NULL satisfies the spec's visibility predicate, yet
`PublishedPostsManager.get_queryset` drops it, because the
`category__is_published=True` join condition fails on a NULL foreign
key. -/
theorem nullCategoryPost_not_listed :
    specVisible storeNull 9 postNoCat = true ∧
    postNoCat ∉ listVisiblePosts storeNull 9 := by decide

/-- C1 (amended): a post of the store appears in `listVisiblePosts` at
time `t` iff it is published, its `pub_date` is strictly before `t`,
and its category reference is non-NULL and points to a published
category; a post whose category reference has been nulled is NOT
eligible. -/
theorem mem_listVisiblePosts_iff (s : Store) (t : Nat) (p : Post)
    (h : p ∈ s.posts) :
    p ∈ listVisiblePosts s t ↔
      p.is_published = true ∧ p.pub_date < t ∧
        categoryPublished s p = true := by
  rw [mem_listVisiblePosts]
  simp [postVisible, h, Bool.and_eq_true, and_assoc]

/-- Witness for C1's amended theorem at a concrete store. -/
theorem mem_listVisiblePosts_iff_witness :
    postA ∈ listVisiblePosts storeMain 9 :=
  (mem_listVisiblePosts_iff storeMain 9 postA (by decide)).mpr (by decide)

/-- C7: `Category` and `Location` listings are a permutation of their
table sorted ascending by `created_at` (the inherited
`BaseBlogMeta.Meta.ordering`), while the `Post` listing is sorted by
`pub_date` descending (`Post.Meta.ordering` overrides the shared
default). -/
theorem default_ordering (s : Store) :
    List.Perm (listCategories s) s.categories ∧
    List.Sorted catEarlier (listCategories s) ∧
    List.Perm (listLocations s) s.locations ∧
    List.Sorted locEarlier (listLocations s) ∧
    List.Perm (listPosts s) s.posts ∧
    List.Sorted postLater (listPosts s) :=
  ⟨List.perm_insertionSort _ _, List.sorted_insertionSort _ _,
   List.perm_insertionSort _ _, List.sorted_insertionSort _ _,
   List.perm_insertionSort _ _, List.sorted_insertionSort _ _⟩

/-- C9: each of the three views returns the store exactly as it found
it, on success and on failure alike: they are pure reads. -/
theorem views_pure_reads (s : Store) (t n i : Nat) (slug : String) :
    (index s t n).2 = s ∧ (post_detail s t i).2 = s ∧
      (category_posts s t slug).2 = s :=
  ⟨rfl, rfl, rfl⟩

/-- C10: when the publication flag is not explicitly supplied at
creation, `is_published` defaults to `true` for `Category`, `Location`
and `Post` alike (`BooleanField(default=True)` on `BaseBlogMeta`). -/
theorem create_is_published_default (id now pd author : Nat)
    (title description slug name text : String) (loc cat : Option Nat) :
    (createCategory id title description slug none now).is_published = true ∧
    (createLocation id name none now).is_published = true ∧
    (createPost id title text pd author loc cat none now).is_published
      = true :=
  ⟨rfl, rfl, rfl⟩

/-- C8: the `index` context is exactly the key `post_list`; a successful
`post_detail` context is exactly the key `post`; a successful
`category_posts` context is exactly the keys `category` and
`post_list`, in that order. -/
theorem context_keys (s : Store) (t n i : Nat) (slug : String) :
    (index s t n).1.map Prod.fst = ["post_list"] ∧
    (∀ ctx, (post_detail s t i).1 = Except.ok ctx →
      ctx.map Prod.fst = ["post"]) ∧
    (∀ ctx, (category_posts s t slug).1 = Except.ok ctx →
      ctx.map Prod.fst = ["category", "post_list"]) := by
  refine ⟨rfl, ?_, ?_⟩
  · intro ctx hctx
    cases hg : getPostById s t i with
    | error e => simp [post_detail, hg, Except.map] at hctx
    | ok p =>
      simp [post_detail, hg, Except.map] at hctx
      subst hctx
      rfl
  · intro ctx hctx
    cases hg : getCategoryBySlug s slug with
    | error e => simp [category_posts, hg, Except.map] at hctx
    | ok c =>
      simp [category_posts, hg, Except.map] at hctx
      subst hctx
      rfl

/-- Witness for C8 at a concrete store, discharging the success
hypotheses of its two conditional parts. -/
theorem context_keys_witness :
    (index storeMain 9 3).1.map Prod.fst = ["post_list"] ∧
    ([("post", CtxVal.post postA)] : Ctx).map Prod.fst = ["post"] ∧
    ([("category", CtxVal.category newsCat),
      ("post_list", CtxVal.posts (categoryPostList storeMain 9 "news"))] :
        Ctx).map Prod.fst = ["category", "post_list"] :=
  ⟨(context_keys storeMain 9 3 10 "news").1,
   (context_keys storeMain 9 3 10 "news").2.1 _ (by rfl),
   (context_keys storeMain 9 3 10 "news").2.2 _ (by rfl)⟩

/-- C2 (counterexample): with two visible posts sharing a `pub_date`,
the page returned by `index` is not strictly descending in `pub_date`
— `Post.Meta.ordering` has no tie-breaking key. -/
theorem listRecentPosts_not_strictly_sorted :
    ¬ strictPubDateDesc (listRecentPosts storeTie 9 2) := by decide

/-- C2 (amended): `listRecentPosts n` returns at most `n` visible store
posts, ordered by `pub_date` non-increasing (strictly descending only
when the dates are distinct), and returns fewer than `n` items only
when fewer than `n` visible posts exist. -/
theorem listRecentPosts_spec (s : Store) (t n : Nat) (h : 0 < n) :
    (listRecentPosts s t n).length ≤ n ∧
    (∀ p ∈ listRecentPosts s t n,
      p ∈ s.posts ∧ postVisible s t p = true) ∧
    (listRecentPosts s t n).Pairwise postLater ∧
    ((listRecentPosts s t n).length < n →
      (s.posts.filter (postVisible s t)).length < n) := by
  refine ⟨?_, ?_, ?_, ?_⟩
  · rw [listRecentPosts, List.length_take]
    exact min_le_left _ _
  · intro p hp
    exact mem_listVisiblePosts.mp
      (List.Sublist.mem hp (List.take_sublist n _))
  · exact List.Pairwise.sublist (List.take_sublist n _)
      (sorted_listVisiblePosts s t)
  · intro hlt
    rw [listRecentPosts, List.length_take] at hlt
    rcases min_lt_iff.mp hlt with h' | h'
    · exact absurd h' (lt_irrefl n)
    · exact length_listVisiblePosts s t ▸ h'

/-- Witness for C2's amended theorem at a concrete store. -/
theorem listRecentPosts_spec_witness :
    (listRecentPosts storeMain 9 1).length ≤ 1 :=
  (listRecentPosts_spec storeMain 9 1 (by decide)).1

/-- C3: with unique post ids, `post_detail`'s lookup returns post `p`
iff `p` is a store post with the requested id that is currently
visible; it fails with `notFound` iff no such post exists — an
existing but hidden post is indistinguishable from a nonexistent
one. -/
theorem getPostById_visibility (s : Store) (t i : Nat)
    (h : postIdsUnique s) :
    (∀ p : Post, getPostById s t i = Except.ok p ↔
       p ∈ s.posts ∧ p.id = i ∧ postVisible s t p = true) ∧
    (getPostById s t i = Except.error DbError.notFound ↔
       ¬ ∃ p, p ∈ s.posts ∧ p.id = i ∧ postVisible s t p = true) := by
  unfold getPostById
  have mem_l : ∀ p : Post,
      p ∈ (listVisiblePosts s t).filter (fun q => q.id == i) ↔
        (p ∈ s.posts ∧ postVisible s t p = true) ∧ p.id = i := by
    intro p
    rw [List.mem_filter, mem_listVisiblePosts, beq_iff_eq]
  constructor
  · intro p
    constructor
    · intro hok
      have hl := getOne_eq_ok.mp hok
      have hp : p ∈ (listVisiblePosts s t).filter (fun q => q.id == i) := by
        rw [hl]
        exact List.mem_singleton_self p
      rcases (mem_l p).mp hp with ⟨⟨h1, h2⟩, h3⟩
      exact ⟨h1, h3, h2⟩
    · rintro ⟨h1, h2, h3⟩
      have hp : p ∈ (listVisiblePosts s t).filter (fun q => q.id == i) :=
        (mem_l p).mpr ⟨⟨h1, h3⟩, h2⟩
      exact getOne_eq_ok.mpr
        (filter_id_eq_singleton (pairwise_ne_listVisiblePosts h t) hp)
  · rw [getOne_eq_notFound, List.filter_eq_nil_iff]
    constructor
    · rintro hall ⟨p, h1, h2, h3⟩
      exact hall p (mem_listVisiblePosts.mpr ⟨h1, h3⟩) (by simpa using h2)
    · intro hne q hq hqi
      exact hne ⟨q, (mem_listVisiblePosts.mp hq).1, beq_iff_eq.mp hqi,
        (mem_listVisiblePosts.mp hq).2⟩

/-- Witness for C3's theorem at a concrete store. -/
theorem getPostById_visibility_witness :
    getPostById storeMain 9 10 = Except.ok postA :=
  ((getPostById_visibility storeMain 9 10 (by decide)).1 postA).mpr
    (by decide)

/-- C4: `category_posts` fails with `notFound` iff no published
category with the requested slug exists, no matter how many posts
reference that slug; an unpublished category is treated as
nonexistent. -/
theorem category_posts_notFound_iff (s : Store) (t : Nat) (slug : String) :
    (category_posts s t slug).1 = Except.error DbError.notFound ↔
      ¬ ∃ c, c ∈ s.categories ∧ c.slug = slug ∧ c.is_published = true := by
  have hmap : (category_posts s t slug).1 = Except.error DbError.notFound ↔
      getCategoryBySlug s slug = Except.error DbError.notFound := by
    cases hg : getCategoryBySlug s slug with
    | error e => simp [category_posts, hg, Except.map]
    | ok c => simp [category_posts, hg, Except.map]
  rw [hmap, getCategoryBySlug, getOne_eq_notFound, List.filter_eq_nil_iff]
  constructor
  · rintro hall ⟨c, h1, h2, h3⟩
    exact hall c h1 (by simp [h2, h3])
  · intro hne c hc hcp
    simp only [Bool.and_eq_true, beq_iff_eq] at hcp
    exact hne ⟨c, hc, hcp.1, hcp.2⟩

/-- C5: for a published category slug, the post list computed by
`category_posts` contains exactly the store posts satisfying full
visibility — the predicate re-evaluated in this second step — whose
category slug matches. -/
theorem categoryPostList_members (s : Store) (t : Nat) (slug : String)
    (h : ∃ c, c ∈ s.categories ∧ c.slug = slug ∧ c.is_published = true)
    (p : Post) :
    p ∈ categoryPostList s t slug ↔
      p ∈ s.posts ∧ postVisible s t p = true ∧
        categorySlugIs s p slug = true := by
  rw [categoryPostList, List.mem_filter, mem_listVisiblePosts, and_assoc]

/-- Witness for C5's theorem at a concrete store. -/
theorem categoryPostList_members_witness :
    postA ∈ categoryPostList storeMain 9 "news" :=
  (categoryPostList_members storeMain 9 "news"
    ⟨newsCat, by decide, rfl, rfl⟩ postA).mpr (by decide)

/-- C6 (counterexample): `postA` satisfies every visibility condition
except the date at time 4, its `pub_date` lies strictly between the two
evaluation times 4 and 7, yet at time 7 it is still absent from
`listRecentPosts` with page size 1, because the newer `postB` fills the
page. -/
theorem pubDate_crossing_counterexample :
    (postA.is_published = true ∧ categoryPublished storeTwo postA = true ∧
     4 < postA.pub_date ∧ postA.pub_date < 7 ∧
     postA ∉ listRecentPosts storeTwo 4 1) ∧
    postA ∉ listRecentPosts storeTwo 7 1 := by decide

/-- C6 (amended): for a post satisfying every visibility condition
except the date, moving the evaluation time from before its `pub_date`
to after it moves the post from absent to present in the category
listing unconditionally, and in `listRecentPosts n` provided the number
of visible posts at the later time does not exceed the page size `n`
(with a saturated page the post can stay absent). -/
theorem pubDate_crossing_amended (s : Store) (t1 t2 n : Nat) (p : Post)
    (c : Category) (hp : p ∈ s.posts) (hpub : p.is_published = true)
    (hc : c ∈ s.categories) (hcid : p.category = some c.id)
    (hcpub : c.is_published = true)
    (ht1 : t1 ≤ p.pub_date) (ht2 : p.pub_date < t2)
    (hn : (s.posts.filter (postVisible s t2)).length ≤ n) :
    p ∉ listRecentPosts s t1 n ∧ p ∉ categoryPostList s t1 c.slug ∧
    p ∈ listRecentPosts s t2 n ∧ p ∈ categoryPostList s t2 c.slug := by
  have hnl : ¬ p.pub_date < t1 := Nat.not_lt.mpr ht1
  have hnotvis : ¬ postVisible s t1 p = true := by
    simp [postVisible, hnl]
  have habs1 : p ∉ listVisiblePosts s t1 := fun hmem =>
    hnotvis (mem_listVisiblePosts.mp hmem).2
  have hcatpub : categoryPublished s p = true := by
    simp only [categoryPublished, hcid]
    exact List.any_eq_true.mpr ⟨c, hc, by simp [hcpub]⟩
  have hslug : categorySlugIs s p c.slug = true := by
    simp only [categorySlugIs, hcid]
    exact List.any_eq_true.mpr ⟨c, hc, by simp⟩
  have hvis2 : postVisible s t2 p = true := by
    simp [postVisible, hpub, ht2, hcatpub]
  have hmem2 : p ∈ listVisiblePosts s t2 :=
    mem_listVisiblePosts.mpr ⟨hp, hvis2⟩
  have hlen : (listVisiblePosts s t2).length ≤ n := by
    rw [length_listVisiblePosts]
    exact hn
  refine ⟨?_, ?_, ?_, ?_⟩
  · intro hmem
    exact habs1 (List.Sublist.mem hmem (List.take_sublist n _))
  · intro hmem
    exact habs1 (List.mem_filter.mp hmem).1
  · rw [listRecentPosts, List.take_of_length_le hlen]
    exact hmem2
  · exact List.mem_filter.mpr ⟨hmem2, hslug⟩

/-- Witness for C6's amended theorem at a concrete store. -/
theorem pubDate_crossing_amended_witness :
    postA ∉ listRecentPosts storeMain 5 1 ∧
    postA ∉ categoryPostList storeMain 5 newsCat.slug ∧
    postA ∈ listRecentPosts storeMain 7 1 ∧
    postA ∈ categoryPostList storeMain 7 newsCat.slug :=
  pubDate_crossing_amended storeMain 5 7 1 postA newsCat (by decide)
    (by decide) (by decide) (by decide) (by decide) (by decide)
    (by decide) (by decide)

end Blogicum
